import Mathlib

/-!
Verification of the order-up service (order lifecycle engine).

The Go source is embedded shallowly:
  * `storage.Order`, `storage.LineItem`, `storage.OrderStatus` become Lean
    structures; `OrderStatus` is an `int64` in Go (with `-1` used as the
    special "any" filter), so it is modelled as `Int`.
  * `(Order).TotalCents` is translated with faithful 64-bit two's-complement
    wrap-around on every `int64` operation.
  * the Mongo-backed store (`storage/db.go`) is modelled as a list of orders
    (documents in insertion order); `FindOne` returns the first document
    matching the filter, `UpdateOne` updates the first match, `Find` returns
    the matching documents (an empty result is not an error).  The outcome of
    the duplicate-id `FindOne` in `InsertOrder` and of the `InsertOne` write
    are kept as explicit parameters because transport-level failures of those
    calls are visible in the function's behaviour.
  * the HTTP handlers `chargeOrder` and `postOrders` (`api/api.go`) become
    functions from the store state and request data to an outcome recording
    the new store state, the exact requests sent to the charge service, and
    the response written (gin writes responses in order; the first status
    written is the one the HTTP layer reports).
-/

set_option autoImplicit false

namespace OrderUp

/-- Two's-complement wrap-around of an integer into the `int64` range
`[-2^63, 2^63)`; every Go `int64` arithmetic operation is composed with this.
The numerals are `2^63` and `2^64`. -/
def wrap64 (n : Int) : Int :=
  (n + 9223372036854775808) % 18446744073709551616 - 9223372036854775808

/-- Go `storage.OrderStatusPending OrderStatus = 0`. -/
def OrderStatusPending : Int := 0

/-- Go `storage.OrderStatusCharged OrderStatus = 1`. -/
def OrderStatusCharged : Int := 1

/-- Go `storage.OrderStatusFulfilled OrderStatus = 2`. -/
def OrderStatusFulfilled : Int := 2

/-- Go `storage.LineItem`: a single charge on an order; `PriceCents` may be
negative for discounts. -/
structure LineItem where
  description : String
  priceCents : Int
  quantity : Int
deriving DecidableEq

/-- Go `storage.Order`. `Status` is the `int64`-valued `OrderStatus`. -/
structure Order where
  id : String
  customerEmail : String
  lineItems : List LineItem
  status : Int
deriving DecidableEq

/-- Go `(Order).TotalCents`: `total += li.PriceCents * li.Quantity` over the
line items, with `int64` wrap-around on the product and on the running sum. -/
def Order.TotalCents (o : Order) : Int :=
  o.lineItems.foldl (fun total li => wrap64 (total + wrap64 (li.priceCents * li.quantity))) 0

/-- The mathematical signed sum `Σ (unitPriceCents × quantity)` over the line
items, as the specification words it (no machine-integer truncation). -/
def signedTotal (ls : List LineItem) : Int :=
  (ls.map (fun li => li.priceCents * li.quantity)).sum

/-- The two error sentinels of the storage package (`ErrOrderNotFound`,
`ErrOrderExists`) plus a transport-level database error. -/
inductive StorageErr
  | orderNotFound
  | orderExists
  | transport (msg : String)
deriving DecidableEq

/-- Go `(Instance).GetOrder`: `FindOne` on the `id` field returns the first
matching document; `mongo.ErrNoDocuments` is mapped to `ErrOrderNotFound`. -/
def getOrderDB (db : List Order) (id : String) : Except StorageErr Order :=
  match db.find? (fun o => o.id == id) with
  | some o => .ok o
  | none => .error .orderNotFound

/-- Go `(Instance).GetOrders`: `Find` with the empty filter when `status` is
`-1`, otherwise with a `{status: status}` filter; the matching documents are
decoded and returned.  An empty result set is not an error from `Find`. -/
def getOrdersDB (db : List Order) (status : Int) : Except StorageErr (List Order) :=
  if status = -1 then .ok db
  else .ok (db.filter (fun o => o.status == status))

/-- Go `(Instance).SetOrderStatus`: `UpdateOne` sets the `status` field of the
first document matching the `id` filter; `MatchedCount == 0` is mapped to
`ErrOrderNotFound` (and the store is untouched). -/
def setOrderStatusDB (db : List Order) (id : String) (status : Int) :
    List Order × Except StorageErr Unit :=
  match db with
  | [] => ([], .error .orderNotFound)
  | o :: rest =>
    if o.id == id then ({ o with status := status } :: rest, .ok ())
    else
      let (rest', r) := setOrderStatusDB rest id status
      (o :: rest', r)

/-- Outcome of the duplicate-id `FindOne(...).Decode(...)` performed by
`InsertOrder` when the caller supplied a non-empty id: the decode succeeded
(`err == nil`, a document was found), the lookup found nothing
(`mongo.ErrNoDocuments`), or the lookup failed at the transport level. -/
inductive FindOneOutcome
  | found (o : Order)
  | errNoDocuments
  | errOther (msg : String)
deriving DecidableEq

/-- Go `(Instance).InsertOrder`: if the order's id is empty a fresh UUID
string (`genId`) is assigned and the order is inserted with no duplicate
check; otherwise `FindOne` looks the id up and only `err == nil` (a document
was found and decoded) yields `ErrOrderExists` — any lookup error, including a
transport failure, falls through to `InsertOne`.  `insertOk` is whether the
`InsertOne` write itself succeeds; on a write failure the wrapped error is
returned and nothing is stored. -/
def insertOrderDB (db : List Order) (order : Order) (genId : String)
    (lookup : FindOneOutcome) (insertOk : Bool) : List Order × Except StorageErr String :=
  if order.id = "" then
    let o := { order with id := genId }
    if insertOk then (db ++ [o], .ok o.id)
    else (db, .error (.transport "error inserting document"))
  else
    match lookup with
    | .found _ => (db, .error .orderExists)
    | _ =>
      if insertOk then (db ++ [order], .ok order.id)
      else (db, .error (.transport "error inserting document"))

/-- Go `api.chargeServiceChargeArgs`: the body POSTed to the charge service's
`/charge` endpoint. -/
structure ChargeServiceChargeArgs where
  cardToken : String
  amountCents : Int
deriving DecidableEq

/-- The response written by the `chargeOrder` handler, one constructor per
`c.JSON` site: 404 not found, 500 on a storage read error, 409 "order
ineligible for charging", 500 from a failed charge-service call, 500 on a
failed status update, or 200 with `chargedCents`. -/
inductive ChargeOrderResult
  | notFound
  | getOrderFailed
  | conflict
  | gatewayFailed
  | setStatusFailed
  | ok (chargedCents : Int)
deriving DecidableEq

/-- Result of running the `chargeOrder` handler: the store afterwards, the
exact bodies POSTed to the charge service (in order), and the response. -/
structure ChargeOutcome where
  db : List Order
  gatewayCalls : List ChargeServiceChargeArgs
  result : ChargeOrderResult
deriving DecidableEq

/-- Go `api.(instance).chargeOrder`, the `POST /orders/:id/charge` handler:
reads the order (404 on `ErrOrderNotFound`); responds 409 unless
`order.Status == storage.OrderStatusCharged` (as written in the source — the
comparison really is against `OrderStatusCharged`, not `OrderStatusPending`);
otherwise always calls `innerChargeOrder` with the card token and
`order.TotalCents()`; on a charge-service failure (`gwCreated = false`, i.e.
the POST did not come back `201 Created`) responds 500 without touching the
store; on success calls `SetOrderStatus(order.ID, OrderStatusCharged)` and
responds 200 with `order.TotalCents()`. -/
def chargeOrder (db : List Order) (id cardToken : String) (gwCreated : Bool) : ChargeOutcome :=
  match getOrderDB db id with
  | .error .orderNotFound => ⟨db, [], .notFound⟩
  | .error _ => ⟨db, [], .getOrderFailed⟩
  | .ok order =>
    if order.status ≠ OrderStatusCharged then ⟨db, [], .conflict⟩
    else
      let args : ChargeServiceChargeArgs := ⟨cardToken, order.TotalCents⟩
      if gwCreated then
        match setOrderStatusDB db order.id OrderStatusCharged with
        | (db', .ok _) => ⟨db', [args], .ok order.TotalCents⟩
        | (db', .error _) => ⟨db', [args], .setStatusFailed⟩
      else ⟨db, [args], .gatewayFailed⟩

/-- Go `api.postOrderArgs`: the body of `POST /orders`. -/
structure PostOrderArgs where
  customerEmail : String
  lineItems : List LineItem
deriving DecidableEq

/-- One response written by the `postOrders` handler, one constructor per
`c.JSON` site: the three 400 validation errors, the 409/500 insert errors,
and the 201 created response carrying the order. -/
inductive PostOrdersResponse
  | badEmail
  | noLineItems
  | negativeTotal
  | insertConflict
  | insertFailed
  | created (o : Order)
deriving DecidableEq

/-- Result of running the `postOrders` handler: the store afterwards, the
orders passed to `InsertOrder` (the store writes attempted), and every
response the handler wrote, in order.  gin writes each `c.JSON` immediately,
so when the handler writes twice the first status is the one the HTTP layer
reports, but both writes happen. -/
structure PostOutcome where
  db : List Order
  insertCalls : List Order
  responses : List PostOrdersResponse
deriving DecidableEq

/-- Go `api.(instance).postOrders`, the `POST /orders` handler: 400 (and
return) when the email lacks `@`; 400 (and return) when there are no line
items; builds the `Pending` order; when `order.TotalCents() < 0` it writes
the 400 "total cannot be less than 0" response but — as written in the
source — does NOT return, so it falls through to `InsertOrder` regardless;
maps `ErrOrderExists` to 409, other insert errors to 500, and otherwise
writes 201 with the order carrying the returned id.  `genId`, `lookup` and
`insertOk` are threaded through to `insertOrderDB`. -/
def postOrders (db : List Order) (args : PostOrderArgs) (genId : String)
    (lookup : FindOneOutcome) (insertOk : Bool) : PostOutcome :=
  if !args.customerEmail.data.contains '@' then ⟨db, [], [.badEmail]⟩
  else if args.lineItems.length < 1 then ⟨db, [], [.noLineItems]⟩
  else
    let order : Order := ⟨"", args.customerEmail, args.lineItems, OrderStatusPending⟩
    let pre : List PostOrdersResponse :=
      if order.TotalCents < 0 then [.negativeTotal] else []
    match insertOrderDB db order genId lookup insertOk with
    | (db', .error .orderExists) => ⟨db', [order], pre ++ [.insertConflict]⟩
    | (db', .error _) => ⟨db', [order], pre ++ [.insertFailed]⟩
    | (db', .ok rid) => ⟨db', [order], pre ++ [.created { order with id := rid }]⟩

/-- Go `api.fulfillmentServiceFulfillArgs`: the body PUT to the fulfillment
service's `/fulfill` endpoint. -/
structure FulfillServiceFulfillArgs where
  description : String
  quantity : Int
  orderID : String
deriving DecidableEq

/-- Response of the modelled `fulfillOrder` operation. -/
inductive FulfillOrderResult
  | notFound
  | conflict
  | gatewayFailed
  | fulfilled
deriving DecidableEq

/-- Result of running `fulfillOrder`: the store afterwards, the bodies sent
to the fulfillment service, and the response. -/
structure FulfillOutcome where
  db : List Order
  gatewayCalls : List FulfillServiceFulfillArgs
  result : FulfillOrderResult
deriving DecidableEq

/-- Modelled from the spec: the repository's `fulfillOrder` handler is absent
from `api/api.go` (only the `fulfillmentServiceFulfillArgs` declaration and a
`TODO: fulfill args, res, function` marker exist), so this follows §4.4 of
the specification: read the order (`NotFound` if absent); an order already
`Fulfilled` succeeds idempotently with no side effects; otherwise fail with
`InvalidTransition` (a conflict) unless the status is `Charged`; call the
Fulfillment Gateway once per line item with strictly positive price
(`gwOk` is whether those calls all succeed); on any gateway failure the order
stays `Charged` and the operation fails with `GatewayError`; on success the
order transitions to `Fulfilled`. -/
def fulfillOrder (db : List Order) (id : String) (gwOk : Bool) : FulfillOutcome :=
  match getOrderDB db id with
  | .error _ => ⟨db, [], .notFound⟩
  | .ok o =>
    if o.status = OrderStatusFulfilled then ⟨db, [], .fulfilled⟩
    else if o.status ≠ OrderStatusCharged then ⟨db, [], .conflict⟩
    else
      let calls := (o.lineItems.filter (fun li => 0 < li.priceCents)).map
        (fun li => FulfillServiceFulfillArgs.mk li.description li.quantity o.id)
      if gwOk then ⟨(setOrderStatusDB db o.id OrderStatusFulfilled).1, calls, .fulfilled⟩
      else ⟨db, calls, .gatewayFailed⟩

/-- An integer already in the `int64` range is fixed by `wrap64`. -/
theorem wrap64_eq_self (n : Int) (h1 : -9223372036854775808 ≤ n)
    (h2 : n < 9223372036854775808) : wrap64 n = n := by
  unfold wrap64; omega

/-- Wrapping the left summand first does not change the wrapped sum. -/
theorem wrap64_add_left (a b : Int) : wrap64 (wrap64 a + b) = wrap64 (a + b) := by
  unfold wrap64; omega

/-- Wrapping the right summand first does not change the wrapped sum. -/
theorem wrap64_add_right (a b : Int) : wrap64 (a + wrap64 b) = wrap64 (a + b) := by
  unfold wrap64; omega

/-- The `TotalCents` accumulator loop, starting from a wrapped accumulator,
computes the wrap of the exact signed sum: the intermediate truncations
cancel. -/
theorem totalCents_foldl_wrap (ls : List LineItem) (a : Int) :
    ls.foldl (fun total li => wrap64 (total + wrap64 (li.priceCents * li.quantity))) (wrap64 a)
      = wrap64 (a + signedTotal ls) := by
  induction ls generalizing a with
  | nil => simp [signedTotal]
  | cons li rest ih =>
    have step : wrap64 (wrap64 a + wrap64 (li.priceCents * li.quantity))
        = wrap64 (a + li.priceCents * li.quantity) := by
      rw [wrap64_add_left, wrap64_add_right]
    have h := ih (a + li.priceCents * li.quantity)
    simp only [List.foldl_cons, step, h, signedTotal, List.map_cons, List.sum_cons]
    have harg : a + li.priceCents * li.quantity + (rest.map fun li => li.priceCents * li.quantity).sum
        = a + (li.priceCents * li.quantity + (rest.map fun li => li.priceCents * li.quantity).sum) := by
      ring
    rw [harg]

/-- `TotalCents` is the 64-bit wrap of the exact signed sum of the line-item
totals. -/
theorem totalCents_eq_wrap (o : Order) : o.TotalCents = wrap64 (signedTotal o.lineItems) := by
  have h := totalCents_foldl_wrap o.lineItems 0
  have h0 : wrap64 0 = 0 := by decide
  rw [h0] at h
  simpa [Order.TotalCents] using h

/-- C1: the claim says `chargeOrder` on a stored `Pending` order with
strictly positive total calls the Charge Gateway exactly once with the
order's total, transitions to `Charged`, and returns the total.  The handler
as written instead requires `order.Status == OrderStatusCharged`, so the
`Pending` order of the repository's own passing-intent test (id `test`, one
line item at 100×1) is rejected with the 409 conflict, no gateway call is
made, and the order stays `Pending`. -/
theorem chargeOrder_pending_order_rejected :
    chargeOrder [⟨"test", "test@test", [⟨"item 1", 100, 1⟩], OrderStatusPending⟩]
        "test" "amex" true
      = ⟨[⟨"test", "test@test", [⟨"item 1", 100, 1⟩], OrderStatusPending⟩], [], .conflict⟩ := by
  decide

/-- C2: the claim says `chargeOrder` on a `Charged` (or `Fulfilled`) order
fails with `InvalidTransition` and never invokes the Charge Gateway.  The
handler's inverted status check lets an already-`Charged` order through: the
gateway is called (again) with the order's total and the handler responds
200 with `chargedCents = 100` — a double charge. -/
theorem chargeOrder_charged_order_charged_again :
    chargeOrder [⟨"test", "test@test", [⟨"item 1", 100, 1⟩], OrderStatusCharged⟩]
        "test" "amex" true
      = ⟨[⟨"test", "test@test", [⟨"item 1", 100, 1⟩], OrderStatusCharged⟩],
          [⟨"amex", 100⟩], .ok 100⟩ := by
  decide

/-- C3: the claim says a `Pending` order whose line items sum to 0 moves to
`Charged` with no gateway call and returns 0.  The handler rejects the
`Pending` zero-total order with a conflict (first conjunct), and it contains
no zero-amount skip at all: a zero-total order that does pass the status
check still causes a charge-service POST with `amountCents = 0` (second
conjunct). -/
theorem chargeOrder_zero_total_behaviour :
    chargeOrder [⟨"test", "test@test",
        [⟨"item 1", 100, 1⟩, ⟨"#1 customer discount", -100, 1⟩], OrderStatusPending⟩]
        "test" "amex" true
      = ⟨[⟨"test", "test@test",
            [⟨"item 1", 100, 1⟩, ⟨"#1 customer discount", -100, 1⟩], OrderStatusPending⟩],
          [], .conflict⟩ ∧
    (chargeOrder [⟨"test", "test@test",
        [⟨"item 1", 100, 1⟩, ⟨"#1 customer discount", -100, 1⟩], OrderStatusCharged⟩]
        "test" "amex" true).gatewayCalls = [⟨"amex", 0⟩] := by
  decide

/-- C4: whenever the charge-service call fails (the POST does not come back
`201 Created`), the handler responds with the gateway error before the
`SetOrderStatus` call is reached, so the store is returned exactly as it was:
no status write occurs on the gateway-error path, making it safely
retryable. -/
theorem chargeOrder_gateway_failure_is_atomic (db : List Order) (id tok : String) :
    (chargeOrder db id tok false).db = db ∧
    ((chargeOrder db id tok false).gatewayCalls ≠ [] →
      (chargeOrder db id tok false).result = .gatewayFailed) := by
  unfold chargeOrder
  cases hg : getOrderDB db id with
  | error e => cases e <;> simp
  | ok o =>
    by_cases hs : o.status = OrderStatusCharged
    · simp [hs]
    · simp [hs]

/-- C4 witness: on a store holding one `Charged` order, a failed gateway call
leaves the store unchanged and surfaces the gateway failure. -/
theorem chargeOrder_gateway_failure_is_atomic_witness :
    (chargeOrder [⟨"test", "test@test", [⟨"item 1", 100, 1⟩], OrderStatusCharged⟩]
        "test" "amex" false).db
      = [⟨"test", "test@test", [⟨"item 1", 100, 1⟩], OrderStatusCharged⟩] ∧
    (chargeOrder [⟨"test", "test@test", [⟨"item 1", 100, 1⟩], OrderStatusCharged⟩]
        "test" "amex" false).result = .gatewayFailed := by
  have h := chargeOrder_gateway_failure_is_atomic
    [⟨"test", "test@test", [⟨"item 1", 100, 1⟩], OrderStatusCharged⟩] "test" "amex"
  exact ⟨h.1, h.2 (by decide)⟩

/-- C5: the claim says a creation request with net-negative total fails with
`ValidationError` and no store write occurs.  The handler writes the 400
"total cannot be less than 0" response but is missing the `return`, so it
falls through: `InsertOrder` is still called and the order is persisted (the
repository's own test stubs no `InsertOrder` call for this case, so the code
contradicts it). -/
theorem postOrders_negative_total_still_inserts :
    postOrders [] ⟨"test@test", [⟨"item 1", 1000, 1⟩, ⟨"huge discount", -10000, 1⟩]⟩
        "random" .errNoDocuments true
      = ⟨[⟨"random", "test@test",
            [⟨"item 1", 1000, 1⟩, ⟨"huge discount", -10000, 1⟩], OrderStatusPending⟩],
          [⟨"", "test@test",
            [⟨"item 1", 1000, 1⟩, ⟨"huge discount", -10000, 1⟩], OrderStatusPending⟩],
          [.negativeTotal,
           .created ⟨"random", "test@test",
            [⟨"item 1", 1000, 1⟩, ⟨"huge discount", -10000, 1⟩], OrderStatusPending⟩]⟩ := by
  decide

/-- C6: whenever the exact signed sum `Σ unitPriceCents × quantity` of an
order's line items lies in the `int64` range, `TotalCents` returns exactly
that signed sum; and it is a pure function of the line items alone (the
`Order` record stores no total, so every call recomputes it from
`lineItems`). -/
theorem totalCents_is_signed_sum (o : Order)
    (h1 : -9223372036854775808 ≤ signedTotal o.lineItems)
    (h2 : signedTotal o.lineItems < 9223372036854775808) :
    o.TotalCents = signedTotal o.lineItems ∧
    ∀ o' : Order, o'.lineItems = o.lineItems → o'.TotalCents = o.TotalCents := by
  constructor
  · rw [totalCents_eq_wrap, wrap64_eq_self _ h1 h2]
  · intro o' h
    simp [Order.TotalCents, h]

/-- C6 witness: a concrete order with items 100×2 and −50×1 totals 150. -/
theorem totalCents_is_signed_sum_witness :
    (Order.mk "t" "e@e" [⟨"a", 100, 2⟩, ⟨"d", -50, 1⟩] 0).TotalCents = 150 := by
  have h := (totalCents_is_signed_sum (Order.mk "t" "e@e" [⟨"a", 100, 2⟩, ⟨"d", -50, 1⟩] 0)
    (by decide) (by decide)).1
  simpa [signedTotal] using h

/-- C7: provided the duplicate-id lookup reflects the store (it finds a
document exactly when one with the requested id is present) and the UUID
generator yields a non-empty id unused in the store: inserting an order with
an empty id succeeds, returns that non-empty unused id, and appends the order
under it; inserting an order whose id matches a stored order fails with
`ErrOrderExists` and leaves the store — in particular the existing order's
fields — untouched. -/
theorem insertOrder_contract (db : List Order) (o : Order) (genId : String)
    (lookup : FindOneOutcome)
    (hlookup : (∃ x ∈ db, x.id = o.id) → ∃ x, lookup = FindOneOutcome.found x) :
    (o.id = "" → genId ≠ "" → (∀ x ∈ db, x.id ≠ genId) →
      (insertOrderDB db o genId lookup true).2 = .ok genId ∧
      (insertOrderDB db o genId lookup true).1 = db ++ [{ o with id := genId }] ∧
      genId ≠ "" ∧ ∀ x ∈ db, x.id ≠ genId) ∧
    (o.id ≠ "" → (∃ x ∈ db, x.id = o.id) →
      (insertOrderDB db o genId lookup true).2 = .error .orderExists ∧
      (insertOrderDB db o genId lookup true).1 = db) := by
  constructor
  · intro hid hne hfresh
    refine ⟨?_, ?_, hne, hfresh⟩ <;> simp [insertOrderDB, hid]
  · intro hid hex
    obtain ⟨x, hlk⟩ := hlookup hex
    refine ⟨?_, ?_⟩ <;> simp [insertOrderDB, hid, hlk]

/-- C7 witness: on a store holding the order `test1`, an empty-id insert
returns the fresh generated id, and a second insert of id `test1` is rejected
with `ErrOrderExists`. -/
theorem insertOrder_contract_witness :
    (insertOrderDB [⟨"test1", "t@t", [], 1⟩] ⟨"", "e@e", [], 0⟩ "fresh-id"
        .errNoDocuments true).2 = .ok "fresh-id" ∧
    (insertOrderDB [⟨"test1", "t@t", [], 1⟩] ⟨"test1", "e@e", [], 0⟩ "g1"
        (.found ⟨"test1", "t@t", [], 1⟩) true).2 = .error .orderExists := by
  constructor
  · exact ((insertOrder_contract [⟨"test1", "t@t", [], 1⟩] ⟨"", "e@e", [], 0⟩ "fresh-id"
      .errNoDocuments (fun hx => absurd hx (by decide))).1 rfl (by decide) (by decide)).1
  · exact ((insertOrder_contract [⟨"test1", "t@t", [], 1⟩] ⟨"test1", "e@e", [], 0⟩ "g1"
      (.found ⟨"test1", "t@t", [], 1⟩) (fun _ => ⟨⟨"test1", "t@t", [], 1⟩, rfl⟩)).2
      (by decide) (by decide)).1

/-- C8: re-invoking `fulfillOrder` on an order that is already `Fulfilled`
succeeds, makes no Fulfillment Gateway call, and leaves the store unchanged
(idempotent, no side effects), for any behaviour of the gateway. -/
theorem fulfillOrder_idempotent_on_fulfilled (db : List Order) (id : String) (gwOk : Bool)
    (o : Order) (hfind : getOrderDB db id = .ok o) (hst : o.status = OrderStatusFulfilled) :
    fulfillOrder db id gwOk = ⟨db, [], .fulfilled⟩ := by
  simp [fulfillOrder, hfind, hst]

/-- C8 witness: a store with one `Fulfilled` order; fulfilling it again
succeeds with no gateway calls and no store change. -/
theorem fulfillOrder_idempotent_on_fulfilled_witness :
    fulfillOrder [⟨"t", "e@e", [⟨"a", 5, 1⟩], OrderStatusFulfilled⟩] "t" true
      = ⟨[⟨"t", "e@e", [⟨"a", 5, 1⟩], OrderStatusFulfilled⟩], [], .fulfilled⟩ :=
  fulfillOrder_idempotent_on_fulfilled _ _ _
    ⟨"t", "e@e", [⟨"a", 5, 1⟩], OrderStatusFulfilled⟩ rfl (by decide)

/-- C9: `GetOrders` with the special `-1` filter returns every stored order,
and with a status filter matched by no stored order it succeeds with the
empty list rather than an error. -/
theorem getOrders_filter_contract (db : List Order) (s : Int) :
    getOrdersDB db (-1) = .ok db ∧
    (s ≠ -1 → (∀ o ∈ db, o.status ≠ s) → getOrdersDB db s = .ok []) := by
  constructor
  · simp [getOrdersDB]
  · intro hs hnone
    simp only [getOrdersDB, if_neg hs]
    congr 1
    rw [List.filter_eq_nil_iff]
    intro o ho
    simpa using hnone o ho

/-- C9 witness: a store with one `Pending` order; the `-1` filter returns it
and the `Charged` filter returns the empty list without error. -/
theorem getOrders_filter_contract_witness :
    getOrdersDB [⟨"t", "e@e", [], OrderStatusPending⟩] (-1)
      = .ok [⟨"t", "e@e", [], OrderStatusPending⟩] ∧
    getOrdersDB [⟨"t", "e@e", [], OrderStatusPending⟩] OrderStatusCharged = .ok [] := by
  have h := getOrders_filter_contract [⟨"t", "e@e", [], OrderStatusPending⟩] OrderStatusCharged
  exact ⟨h.1, h.2 (by decide) (by decide)⟩

/-- C10: with a non-empty caller-supplied id, a transport-level failure of
the duplicate-existence lookup makes `InsertOrder` insert the order anyway —
even when an order with that id is already stored — and the `ErrOrderExists`
outcome can only arise from a lookup that completed successfully and found a
document. -/
theorem insertOrder_lookup_error_bypasses_duplicate_check (db : List Order) (o : Order)
    (genId msg : String) (hne : o.id ≠ "") :
    ((insertOrderDB db o genId (.errOther msg) true).2 = .ok o.id ∧
     (insertOrderDB db o genId (.errOther msg) true).1 = db ++ [o]) ∧
    (∀ lookup : FindOneOutcome,
      (insertOrderDB db o genId lookup true).2 = .error .orderExists →
      ∃ x, lookup = FindOneOutcome.found x) := by
  constructor
  · refine ⟨?_, ?_⟩ <;> simp [insertOrderDB, hne]
  · intro lookup h
    cases lookup with
    | found x => exact ⟨x, rfl⟩
    | errNoDocuments => simp [insertOrderDB, hne] at h
    | errOther m => simp [insertOrderDB, hne] at h

/-- C10 witness: the store already holds an order with id `test1`; a second
insert of id `test1` whose existence lookup fails at the transport level
succeeds and stores a duplicate. -/
theorem insertOrder_lookup_error_bypasses_duplicate_check_witness :
    (insertOrderDB [⟨"test1", "t@t", [], 1⟩] ⟨"test1", "e@e", [], 0⟩ "g"
        (.errOther "network") true).2 = .ok "test1" ∧
    (insertOrderDB [⟨"test1", "t@t", [], 1⟩] ⟨"test1", "e@e", [], 0⟩ "g"
        (.errOther "network") true).1
      = [⟨"test1", "t@t", [], 1⟩, ⟨"test1", "e@e", [], 0⟩] := by
  have h := insertOrder_lookup_error_bypasses_duplicate_check
    [⟨"test1", "t@t", [], 1⟩] ⟨"test1", "e@e", [], 0⟩ "g" "network" (by decide)
  exact ⟨h.1.1, h.1.2⟩

end OrderUp
